import Mathlib

/-!
Verification of the Vyaamik Samadhaan ML service (`ml-service/app/main.py`,
`ml-service/app/utils.py`, `ml-service/train_ranker.py`).

Shallow embedding conventions:
* Python floats are modelled as real numbers (`ℝ`); IEEE division by a zero
  norm (which produces NaN at runtime) appears here as division by `0`.
* HTTP errors (`HTTPException`) are modelled by `Except` with an explicit
  status code and detail string.
* The process-global ranker cache is modelled by explicit state passing:
  the module globals `_ranker_model` / `_ranker_session` become a
  `RankerState` record threaded through `get_ranker`.
* External libraries (onnxruntime, sentence-transformers, pandas IO,
  lightgbm) are opaque: an ONNX session is a record holding an arbitrary
  fallible inference function, the embedding model load is an arbitrary
  `Except` value, and the CSV is an already-parsed table.
* Wall-clock timing (`took_ms`) is environmental and omitted from the
  response records.
-/

namespace MLService

/-! ## utils.py: vector math -/

/-- `np.dot` on two 1-D vectors: sum of elementwise products. -/
def dotList (a b : List ℝ) : ℝ := (List.zipWith (· * ·) a b).sum

/-- `np.linalg.norm`: Euclidean (L2) norm of a vector. -/
noncomputable def linalgNorm (v : List ℝ) : ℝ := Real.sqrt (dotList v v)

/-- `a_np / np.linalg.norm(a_np)`: elementwise division of a vector by its
L2 norm, exactly as `cosine_similarity` computes it (no zero-norm guard). -/
noncomputable def normalizeVec (v : List ℝ) : List ℝ :=
  v.map (fun x => x / linalgNorm v)

/-- `utils.cosine_similarity`: normalize both vectors to unit L2 norm, then
take their dot product. -/
noncomputable def cosine_similarity (a b : List ℝ) : ℝ :=
  dotList (normalizeVec a) (normalizeVec b)

/-- `utils.dot_product`: dot product of two vectors. -/
def dot_product (a b : List ℝ) : ℝ := dotList a b

/-! ## main.py: request/response records and errors -/

/-- `fastapi.HTTPException`: a status code and a detail message. -/
structure HTTPException where
  status_code : Nat
  detail : String
deriving DecidableEq, Repr

/-- `VectorPair` request model. -/
structure VectorPair where
  user_vec : List ℝ
  item_vec : List ℝ

/-- `ScoreRequest`: the `method` field is a string; pydantic's
`Literal["cosine", "dot"]` constraint is the predicate `ValidMethod`. -/
structure ScoreRequest where
  pairs : List VectorPair
  method : String

/-- Pydantic shape constraint on `ScoreRequest.method`. -/
def ValidMethod (m : String) : Prop := m = "cosine" ∨ m = "dot"

/-- Pydantic shape constraints on `ScoreRequest`
(`min_items=1, max_items=512` and the method literal). -/
def ValidScoreRequest (req : ScoreRequest) : Prop :=
  1 ≤ req.pairs.length ∧ req.pairs.length ≤ 512 ∧ ValidMethod req.method

/-- `ScoreResponse` (without the environmental `took_ms`). -/
structure ScoreResponse where
  scores : List ℝ

/-! ## main.py: `score_pairs` endpoint -/

/-- Detail string of the invalid-method rejection in `score_pairs`. -/
def invalidMethodDetail : String := "Invalid method. Use 'cosine' or 'dot'"

/-- Per-pair method dispatch inside the `score_pairs` loop: `cosine`,
else `dot`, else the invalid-method client fault. -/
noncomputable def methodScore (method : String) (a b : List ℝ) :
    Except HTTPException ℝ :=
  if method = "cosine" then
    .ok (cosine_similarity a b)
  else if method = "dot" then
    .ok (dot_product a b)
  else
    .error ⟨400, invalidMethodDetail⟩

/-- The `for pair in request.pairs` loop of `score_pairs`: per pair, first
the length check, then the method dispatch; the first raise aborts the
whole request. -/
noncomputable def scoreLoop (method : String) :
    List VectorPair → Except HTTPException (List ℝ)
  | [] => .ok []
  | pair :: rest =>
    if pair.user_vec.length ≠ pair.item_vec.length then
      .error ⟨400, "Vector dimensions must match"⟩
    else do
      let score ← methodScore method pair.user_vec pair.item_vec
      let restScores ← scoreLoop method rest
      pure (score :: restScores)

/-- `score_pairs` endpoint: run the loop, wrap the scores.  `HTTPException`
is re-raised as-is; the vector math itself is total, so the generic
`Scoring failed` handler is not reached. -/
noncomputable def score_pairs (req : ScoreRequest) :
    Except HTTPException ScoreResponse :=
  (scoreLoop req.method req.pairs).map ScoreResponse.mk

/-! ## main.py: ranker provider (`get_ranker`) -/

/-- An `onnxruntime.InferenceSession`, opaque: the whole ONNX inference
block of `rank_candidates` (tensor conversion, `session.run`, flatten) is
one fallible function from feature rows to scores. -/
structure OrtSession where
  run : List (List ℝ) → Except String (List ℝ)

/-- Environment of one `get_ranker` call: whether `import onnxruntime`
succeeds, whether `./models/ranker.onnx` exists, and what
`ort.InferenceSession(model_path)` would yield (a session, or a raised
error). -/
structure RankerEnv where
  importOk : Bool
  fileExists : Bool
  loadSession : Except String OrtSession

/-- The module globals `_ranker_model` / `_ranker_session`. -/
structure RankerState where
  _ranker_model : Option String
  _ranker_session : Option OrtSession

/-- Initial value of the globals (`None`, `None`). -/
def initRankerState : RankerState := ⟨none, none⟩

/-- Body of the `if _ranker_model is None` branch of `get_ranker`: the
try/except that decides the cached kind.  Import failure, a missing file,
or a load error all leave `_ranker_session = None` and cache
`"fallback"`; a successful load caches `"onnx"` and the session. -/
def loadRanker (env : RankerEnv) : RankerState :=
  if env.importOk then
    if env.fileExists then
      match env.loadSession with
      | .ok s => ⟨some "onnx", some s⟩
      | .error _ => ⟨some "fallback", none⟩
    else ⟨some "fallback", none⟩
  else ⟨some "fallback", none⟩

/-- `get_ranker`: on first call (cache empty) run the load and fill the
globals; afterwards return the cached pair untouched, ignoring the
environment. -/
def get_ranker (env : RankerEnv) (st : RankerState) :
    (Option String × Option OrtSession) × RankerState :=
  if st._ranker_model = none then
    let st2 := loadRanker env
    ((st2._ranker_model, st2._ranker_session), st2)
  else
    ((st._ranker_model, st._ranker_session), st)

/-! ## main.py: `rank_candidates` endpoint -/

/-- `RankRequest` (pydantic bounds `min_items=1, max_items=512` are the
predicate `ValidRankRequest`). -/
structure RankRequest where
  features : List (List ℝ)

/-- Pydantic shape constraints on `RankRequest`. -/
def ValidRankRequest (req : RankRequest) : Prop :=
  1 ≤ req.features.length ∧ req.features.length ≤ 512

/-- `RankResponse` (without the environmental `took_ms`). -/
structure RankResponse where
  scores : List ℝ
  model : String

/-- The documented fallback weights `[1.0, 0.2, 0.2, 0.2]`. -/
noncomputable def fallbackWeights : List ℝ := [1.0, 0.2, 0.2, 0.2]

/-- `sum(w * f for w, f in zip(weights, features))`. -/
noncomputable def fallbackScore (features : List ℝ) : ℝ :=
  (List.zipWith (· * ·) fallbackWeights features).sum

/-- The fallback `for features in request.features` loop: reject any row
whose length is not 4, otherwise collect the linear-combination scores in
order; the first raise aborts the whole request. -/
noncomputable def fallbackScores :
    List (List ℝ) → Except HTTPException (List ℝ)
  | [] => .ok []
  | features :: rest =>
    if features.length ≠ 4 then
      .error ⟨400, "Expected 4 features per candidate"⟩
    else do
      let restScores ← fallbackScores rest
      pure (fallbackScore features :: restScores)

/-- `rank_candidates` endpoint, taking the `(model_type, session)` pair
obtained from `get_ranker` (whose cached kind is never `None`; see
`get_ranker_model_isSome`).  ONNX branch only when
`model_type == "onnx" and session is not None`; an exception from the
inference block becomes the generic 500 `Ranking failed` error;
`HTTPException` from the fallback loop is re-raised as-is. -/
noncomputable def rank_candidates (model_type : String)
    (session : Option OrtSession) (req : RankRequest) :
    Except HTTPException RankResponse :=
  match session with
  | some s =>
    if model_type = "onnx" then
      match s.run req.features with
      | .ok scores => .ok ⟨scores, model_type⟩
      | .error e => .error ⟨500, "Ranking failed: " ++ e⟩
    else
      (fallbackScores req.features).map (fun scores => ⟨scores, model_type⟩)
  | none =>
    (fallbackScores req.features).map (fun scores => ⟨scores, model_type⟩)

/-! ## main.py: health endpoints -/

/-- The sentence-transformer model object, opaque; `model_name` is `none`
when `hasattr(model, "model_name")` is false. -/
structure EmbModel where
  model_name : Option String

/-- The hard-coded model-name fallback string. -/
def defaultModelName : String := "paraphrase-multilingual-MiniLM-L12-v2"

/-- `HealthResponse` model. -/
structure HealthResponse where
  ok : Bool
  model : String
  ready : Bool
deriving DecidableEq, Repr

/-- `RankerHealthResponse` model. -/
structure RankerHealthResponse where
  ok : Bool
  model : String
  dimsExpected : Nat
deriving DecidableEq, Repr

/-- `health_check` endpoint: `get_model()` is opaque and may fail
(`load` is its outcome); every failure becomes the structured
`ok=false, model="error", ready=false` response — nothing is raised. -/
def health_check (load : Except String EmbModel) : HealthResponse :=
  match load with
  | .ok m => ⟨true, m.model_name.getD defaultModelName, true⟩
  | .error _ => ⟨false, "error", false⟩

/-- `ranker_health` endpoint: reports the cached ranker kind with
`dimsExpected=4`; any failure inside the try (including a `None` kind
failing response validation) becomes the structured error response. -/
def ranker_health (env : RankerEnv) (st : RankerState) :
    RankerHealthResponse :=
  match (get_ranker env st).1.1 with
  | some kind => ⟨true, kind, 4⟩
  | none => ⟨false, "error", 4⟩

/-! ## train_ranker.py: load step and exit status -/

/-- An in-memory CSV table as pandas sees it after `read_csv`: column
names plus rows of cells, where `none` is a missing value (NaN). -/
structure DataFrame where
  columns : List String
  rows : List (List (Option ℚ))

/-- `required_cols` of `load_data`. -/
def required_cols : List String :=
  ["label", "f0_sim", "f1_recency", "f2_trust", "f3_geo"]

/-- Errors raised by the training pipeline: the schema `ValueError`
carrying the exact missing column list, or any other step failure. -/
inductive TrainError where
  | missingColumns (cols : List String)
  | stepFailed (msg : String)
deriving DecidableEq, Repr

/-- `df.isnull().any().any()`: some cell is missing. -/
def hasMissingValues (df : DataFrame) : Bool :=
  df.rows.any (fun r => r.any (fun c => c.isNone))

/-- `df.fillna(0)`: replace every missing cell by 0. -/
def fillna0 (df : DataFrame) : DataFrame :=
  ⟨df.columns, df.rows.map (fun r => r.map (fun c => some (c.getD 0)))⟩

/-- `load_data`: compute the missing required columns as listed by
`[col for col in required_cols if col not in df.columns]`; raise naming
exactly that list when nonempty; otherwise fill missing cells with 0
(with a printed warning, whose condition is `hasMissingValues`). -/
def load_data (df : DataFrame) : Except TrainError DataFrame :=
  let missing_cols := required_cols.filter (fun c => !df.columns.contains c)
  if missing_cols ≠ [] then
    .error (.missingColumns missing_cols)
  else if hasMissingValues df then
    .ok (fillna0 df)
  else
    .ok df

/-- `main` of `train_ranker.py`: load, then the rest of the pipeline
(prepare + train + export, opaque here, passed as `rest`); any raise
yields exit status 1, success yields 0. -/
def main_train (df : DataFrame)
    (rest : DataFrame → Except TrainError Unit) : Nat :=
  match load_data df with
  | .error _ => 1
  | .ok d =>
    match rest d with
    | .error _ => 1
    | .ok _ => 0

/-! ## Spec-level vector vocabulary (for the algebraic claims) -/

/-- Elementwise vector addition (used only to state bilinearity). -/
def vecAdd (a b : List ℝ) : List ℝ := List.zipWith (· + ·) a b

/-- Scalar multiple of a vector (used only to state bilinearity). -/
def vecSmul (c : ℝ) (a : List ℝ) : List ℝ := a.map (fun x => c * x)

/-! ## Helper lemmas -/

theorem dotList_nil_right (a : List ℝ) : dotList a [] = 0 := by
  cases a <;> simp [dotList]

theorem dotList_comm (a b : List ℝ) : dotList a b = dotList b a := by
  unfold dotList
  rw [List.zipWith_comm_of_comm]
  exact mul_comm

theorem dotList_add_left (a1 a2 b : List ℝ) (h : a1.length = a2.length) :
    dotList (vecAdd a1 a2) b = dotList a1 b + dotList a2 b := by
  induction a1 generalizing a2 b with
  | nil =>
    have : a2 = [] := by
      cases a2 with
      | nil => rfl
      | cons y ys => simp at h
    subst this
    simp [vecAdd, dotList]
  | cons x xs ih =>
    cases a2 with
    | nil => simp at h
    | cons y ys =>
      cases b with
      | nil => simp [dotList_nil_right]
      | cons z zs =>
        have hlen : xs.length = ys.length := by simpa using h
        simp only [vecAdd, List.zipWith_cons_cons, dotList, List.sum_cons]
        have := ih ys zs hlen
        simp only [vecAdd, dotList] at this
        rw [this]
        ring

theorem dotList_smul_left (c : ℝ) (a b : List ℝ) :
    dotList (vecSmul c a) b = c * dotList a b := by
  induction a generalizing b with
  | nil => simp [vecSmul, dotList]
  | cons x xs ih =>
    cases b with
    | nil => simp [dotList_nil_right]
    | cons z zs =>
      simp only [vecSmul, List.map_cons, dotList, List.zipWith_cons_cons,
        List.sum_cons]
      have := ih zs
      simp only [vecSmul, dotList] at this
      rw [this]
      ring

theorem scoreLoop_cosine (pairs : List VectorPair)
    (h : ∀ p ∈ pairs, p.user_vec.length = p.item_vec.length) :
    scoreLoop "cosine" pairs =
      .ok (pairs.map (fun p => cosine_similarity p.user_vec p.item_vec)) := by
  induction pairs with
  | nil => simp [scoreLoop]
  | cons p rest ih =>
    have hp := h p (List.mem_cons_self _ _)
    have hrest := ih (fun q hq => h q (List.mem_cons_of_mem _ hq))
    simp [scoreLoop, hp, methodScore, hrest]
    rfl

theorem scoreLoop_dot (pairs : List VectorPair)
    (h : ∀ p ∈ pairs, p.user_vec.length = p.item_vec.length) :
    scoreLoop "dot" pairs =
      .ok (pairs.map (fun p => dot_product p.user_vec p.item_vec)) := by
  induction pairs with
  | nil => simp [scoreLoop]
  | cons p rest ih =>
    have hp := h p (List.mem_cons_self _ _)
    have hrest := ih (fun q hq => h q (List.mem_cons_of_mem _ hq))
    simp [scoreLoop, hp, methodScore, hrest]
    rfl

theorem scoreLoop_mismatch (m : String) (hm : ValidMethod m)
    (pairs : List VectorPair)
    (h : ∃ p ∈ pairs, p.user_vec.length ≠ p.item_vec.length) :
    scoreLoop m pairs = .error ⟨400, "Vector dimensions must match"⟩ := by
  induction pairs with
  | nil => simp at h
  | cons p rest ih =>
    by_cases hp : p.user_vec.length = p.item_vec.length
    · have hrest : ∃ q ∈ rest, q.user_vec.length ≠ q.item_vec.length := by
        rcases h with ⟨q, hq, hne⟩
        rcases List.mem_cons.mp hq with rfl | hq2
        · exact absurd hp hne
        · exact ⟨q, hq2, hne⟩
      rcases hm with rfl | rfl
      · simp [scoreLoop, hp, methodScore, ih hrest]
        rfl
      · simp [scoreLoop, hp, methodScore, ih hrest]
        rfl
    · simp [scoreLoop, hp]

/-! ## Claim theorems -/

/-- C5: `cosine_similarity` is symmetric on equal-length vectors and
`dot_product` is bilinear: additive and homogeneous in each argument
separately. -/
theorem c5_cosine_symm_dot_bilinear :
    (∀ a b : List ℝ, a.length = b.length →
        cosine_similarity a b = cosine_similarity b a) ∧
    (∀ a1 a2 b : List ℝ, a1.length = b.length → a2.length = b.length →
        dot_product (vecAdd a1 a2) b = dot_product a1 b + dot_product a2 b) ∧
    (∀ (c : ℝ) (a b : List ℝ), a.length = b.length →
        dot_product (vecSmul c a) b = c * dot_product a b) ∧
    (∀ a b1 b2 : List ℝ, b1.length = a.length → b2.length = a.length →
        dot_product a (vecAdd b1 b2) = dot_product a b1 + dot_product a b2) ∧
    (∀ (c : ℝ) (a b : List ℝ), a.length = b.length →
        dot_product a (vecSmul c b) = c * dot_product a b) := by
  refine ⟨?_, ?_, ?_, ?_, ?_⟩
  · intro a b _
    unfold cosine_similarity
    exact dotList_comm _ _
  · intro a1 a2 b h1 h2
    unfold dot_product
    exact dotList_add_left a1 a2 b (h1.trans h2.symm)
  · intro c a b _
    exact dotList_smul_left c a b
  · intro a b1 b2 h1 h2
    unfold dot_product
    rw [dotList_comm a (vecAdd b1 b2), dotList_add_left b1 b2 a (h1.trans h2.symm),
      dotList_comm b1 a, dotList_comm b2 a]
  · intro c a b _
    unfold dot_product
    rw [dotList_comm a (vecSmul c b), dotList_smul_left c b a, dotList_comm b a]

/-- Witness for C5 at concrete vectors. -/
theorem c5_witness :
    cosine_similarity [1, 0] [0, 1] = cosine_similarity [0, 1] [1, 0] ∧
    dot_product (vecAdd [1] [2]) [3] = dot_product [1] [3] + dot_product [2] [3] :=
  ⟨c5_cosine_symm_dot_bilinear.1 [1, 0] [0, 1] rfl,
   c5_cosine_symm_dot_bilinear.2.1 [1] [2] [3] rfl rfl⟩

/-- C3: a score request containing any pair with mismatched vector lengths
is rejected whole with the 400 client fault "Vector dimensions must
match" — no scores, no crash, no 500 conversion. -/
theorem c3_mismatch_rejects_request (req : ScoreRequest)
    (hm : ValidMethod req.method)
    (h : ∃ p ∈ req.pairs, p.user_vec.length ≠ p.item_vec.length) :
    score_pairs req = .error ⟨400, "Vector dimensions must match"⟩ := by
  unfold score_pairs
  rw [scoreLoop_mismatch req.method hm req.pairs h]
  rfl

/-- Witness for C3: a one-pair request with a 2-vector against a 1-vector. -/
theorem c3_witness :
    score_pairs ⟨[⟨[1, 0], [1]⟩], "cosine"⟩ =
      .error ⟨400, "Vector dimensions must match"⟩ :=
  c3_mismatch_rejects_request ⟨[⟨[1, 0], [1]⟩], "cosine"⟩ (Or.inl rfl)
    ⟨⟨[1, 0], [1]⟩, List.mem_cons_self _ _, by simp⟩

/-- C4: every valid score request yields exactly one score per pair in
input order — `cosine_similarity` under method `cosine`, `dot_product`
under method `dot`; concretely
`([1,0],[1,0])` under cosine scores `1.0` and `([2,0],[3,0])` under dot
scores `6.0`. -/
theorem c4_score_pairs_valid :
    (∀ req : ScoreRequest, ValidScoreRequest req →
        (∀ p ∈ req.pairs, p.user_vec.length = p.item_vec.length) →
        (req.method = "cosine" →
          score_pairs req = .ok ⟨req.pairs.map
            (fun p => cosine_similarity p.user_vec p.item_vec)⟩) ∧
        (req.method = "dot" →
          score_pairs req = .ok ⟨req.pairs.map
            (fun p => dot_product p.user_vec p.item_vec)⟩)) ∧
    score_pairs ⟨[⟨[1, 0], [1, 0]⟩], "cosine"⟩ = .ok ⟨[1]⟩ ∧
    score_pairs ⟨[⟨[2, 0], [3, 0]⟩], "dot"⟩ = .ok ⟨[6]⟩ := by
  have huniv : ∀ req : ScoreRequest,
      (∀ p ∈ req.pairs, p.user_vec.length = p.item_vec.length) →
      (req.method = "cosine" →
        score_pairs req = .ok ⟨req.pairs.map
          (fun p => cosine_similarity p.user_vec p.item_vec)⟩) ∧
      (req.method = "dot" →
        score_pairs req = .ok ⟨req.pairs.map
          (fun p => dot_product p.user_vec p.item_vec)⟩) := by
    rintro ⟨pairs, m⟩ hlen
    constructor
    · rintro rfl
      unfold score_pairs
      rw [scoreLoop_cosine pairs hlen]
      rfl
    · rintro rfl
      unfold score_pairs
      rw [scoreLoop_dot pairs hlen]
      rfl
  refine ⟨fun req _ hlen => huniv req hlen, ?_, ?_⟩
  · have h := (huniv ⟨[⟨[1, 0], [1, 0]⟩], "cosine"⟩ (by simp)).1 rfl
    have hc : cosine_similarity [1, 0] [1, 0] = 1 := by
      have hn : linalgNorm [1, 0] = 1 := by simp [linalgNorm, dotList]
      simp [cosine_similarity, normalizeVec, hn, dotList]
    simpa [hc] using h
  · have h := (huniv ⟨[⟨[2, 0], [3, 0]⟩], "dot"⟩ (by simp)).2 rfl
    have hd : dot_product [2, 0] [3, 0] = 6 := by norm_num [dot_product, dotList]
    simpa [hd] using h

/-- Witness for C4: the cosine scenario with hypotheses discharged. -/
theorem c4_witness :
    score_pairs ⟨[⟨[1, 0], [1, 0]⟩], "cosine"⟩ =
      .ok ⟨[cosine_similarity [1, 0] [1, 0]]⟩ :=
  (c4_score_pairs_valid.1 ⟨[⟨[1, 0], [1, 0]⟩], "cosine"⟩
    ⟨by simp, by simp, Or.inl rfl⟩ (by simp)).1 rfl

/-- C6: `cosine_similarity` has no zero-norm guard: on the all-zero pair
the L2 norms are 0, the function still applies the elementwise division
by those zero norms (NaN in IEEE arithmetic), and `score_pairs` returns
this value as a normal score rather than rejecting the request. -/
theorem c6_zero_norm_unguarded :
    ∃ a b : List ℝ, a.length = b.length ∧
      linalgNorm a = 0 ∧ linalgNorm b = 0 ∧
      cosine_similarity a b =
        dotList (a.map (fun x => x / 0)) (b.map (fun x => x / 0)) ∧
      score_pairs ⟨[⟨a, b⟩], "cosine"⟩ = .ok ⟨[cosine_similarity a b]⟩ := by
  refine ⟨[0, 0], [0, 0], rfl, ?_, ?_, ?_, ?_⟩
  · simp [linalgNorm, dotList]
  · simp [linalgNorm, dotList]
  · have hn : linalgNorm [0, 0] = 0 := by simp [linalgNorm, dotList]
    simp [cosine_similarity, normalizeVec, hn]
  · have h := scoreLoop_cosine [⟨[0, 0], [0, 0]⟩] (by simp)
    unfold score_pairs
    rw [h]
    rfl

/-- C10: for any method admitted by the request shape, the per-pair
dispatch returns the cosine or the dot score; the invalid-method branch
is unreachable. -/
theorem c10_invalid_method_unreachable (m : String) (hm : ValidMethod m)
    (a b : List ℝ) :
    (methodScore m a b = .ok (cosine_similarity a b) ∧ m = "cosine") ∨
    (methodScore m a b = .ok (dot_product a b) ∧ m = "dot") := by
  rcases hm with rfl | rfl
  · exact Or.inl ⟨by simp [methodScore], rfl⟩
  · exact Or.inr ⟨by simp [methodScore], rfl⟩

/-- Witness for C10 at the cosine method. -/
theorem c10_witness :
    (methodScore "cosine" [1] [1] = .ok (cosine_similarity [1] [1]) ∧
      "cosine" = "cosine") ∨
    (methodScore "cosine" [1] [1] = .ok (dot_product [1] [1]) ∧
      "cosine" = "dot") :=
  c10_invalid_method_unreachable "cosine" (Or.inl rfl) [1] [1]

theorem fallbackScores_ok (rows : List (List ℝ))
    (h : ∀ row ∈ rows, row.length = 4) :
    fallbackScores rows = .ok (rows.map fallbackScore) := by
  induction rows with
  | nil => simp [fallbackScores]
  | cons r rest ih =>
    have hr := h r (List.mem_cons_self _ _)
    have hrest := ih (fun q hq => h q (List.mem_cons_of_mem _ hq))
    simp [fallbackScores, hr, hrest]

theorem fallbackScores_err (rows : List (List ℝ))
    (h : ∃ row ∈ rows, row.length ≠ 4) :
    fallbackScores rows =
      .error ⟨400, "Expected 4 features per candidate"⟩ := by
  induction rows with
  | nil => simp at h
  | cons r rest ih =>
    by_cases hr : r.length = 4
    · have hrest : ∃ q ∈ rest, q.length ≠ 4 := by
        rcases h with ⟨q, hq, hne⟩
        rcases List.mem_cons.mp hq with rfl | hq2
        · exact absurd hr hne
        · exact ⟨q, hq2, hne⟩
      simp [fallbackScores, hr, ih hrest]
    · simp [fallbackScores, hr]

/-- C1: in fallback mode every 4-feature row scores the fixed linear
combination `1.0*f0 + 0.2*f1 + 0.2*f2 + 0.2*f3` with `model="fallback"`,
any row of another width is rejected with the 400 client fault
"Expected 4 features per candidate", and `[0.5, 0.5, 0.5, 0.5]` scores
`0.8`. -/
theorem c1_fallback_rank :
    (∀ req : RankRequest, (∀ row ∈ req.features, row.length = 4) →
        rank_candidates "fallback" none req =
          .ok ⟨req.features.map fallbackScore, "fallback"⟩) ∧
    (∀ f0 f1 f2 f3 : ℝ,
        fallbackScore [f0, f1, f2, f3] =
          1.0 * f0 + 0.2 * f1 + 0.2 * f2 + 0.2 * f3) ∧
    (∀ req : RankRequest, (∃ row ∈ req.features, row.length ≠ 4) →
        rank_candidates "fallback" none req =
          .error ⟨400, "Expected 4 features per candidate"⟩) ∧
    fallbackScore [0.5, 0.5, 0.5, 0.5] = 0.8 := by
  refine ⟨?_, ?_, ?_, ?_⟩
  · rintro ⟨rows⟩ h
    simp only [rank_candidates, fallbackScores_ok rows h]
    rfl
  · intro f0 f1 f2 f3
    simp [fallbackScore, fallbackWeights]
    ring
  · rintro ⟨rows⟩ h
    simp only [rank_candidates, fallbackScores_err rows h]
    rfl
  · norm_num [fallbackScore, fallbackWeights]

/-- Witness for C1: the concrete fallback scenario. -/
theorem c1_witness :
    rank_candidates "fallback" none ⟨[[0.5, 0.5, 0.5, 0.5]]⟩ =
      .ok ⟨[(0.8 : ℝ)], "fallback"⟩ := by
  have h := c1_fallback_rank.1 ⟨[[0.5, 0.5, 0.5, 0.5]]⟩ (by simp)
  rw [h]
  simp [c1_fallback_rank.2.2.2]

/-- C2: the ranker kind decided on the first `get_ranker` call is cached
permanently: a second call under any environment returns the same pair
and leaves the cache untouched; the first call yields `onnx` exactly when
the file exists and loads, `fallback` when the file is absent or loading
raises. -/
theorem c2_ranker_kind_permanent (env0 env1 : RankerEnv) :
    ((get_ranker env1 (get_ranker env0 initRankerState).2).1 =
        (get_ranker env0 initRankerState).1 ∧
      (get_ranker env1 (get_ranker env0 initRankerState).2).2 =
        (get_ranker env0 initRankerState).2) ∧
    (env0.importOk = true → env0.fileExists = true →
      ∀ s, env0.loadSession = .ok s →
        (get_ranker env0 initRankerState).1 = (some "onnx", some s)) ∧
    (env0.fileExists = false →
      (get_ranker env0 initRankerState).1 = (some "fallback", none)) ∧
    (∀ e, env0.loadSession = .error e →
      (get_ranker env0 initRankerState).1 = (some "fallback", none)) ∧
    (∀ (env : RankerEnv) (st : RankerState), st._ranker_model ≠ none →
      get_ranker env st = ((st._ranker_model, st._ranker_session), st)) := by
  have hload : ∀ env : RankerEnv,
      ∃ k, (loadRanker env)._ranker_model = some k := by
    rintro ⟨imp, fe, ls⟩
    cases imp <;> cases fe <;> cases ls <;> simp [loadRanker]
  refine ⟨?_, ?_, ?_, ?_, ?_⟩
  · obtain ⟨k, hk⟩ := hload env0
    constructor <;> simp [get_ranker, initRankerState, hk]
  · intro h1 h2 s hs
    simp [get_ranker, initRankerState, loadRanker, h1, h2, hs]
  · intro h
    rcases env0 with ⟨imp, fe, ls⟩
    simp only at h
    subst h
    cases imp <;> simp [get_ranker, initRankerState, loadRanker]
  · intro e he
    rcases env0 with ⟨imp, fe, ls⟩
    simp only at he
    subst he
    cases imp <;> cases fe <;> simp [get_ranker, initRankerState, loadRanker]
  · intro env st hst
    simp [get_ranker, hst]

/-- Witness for C2: a missing model file caches kind `fallback`. -/
theorem c2_witness :
    (get_ranker ⟨true, false, Except.error "nofile"⟩ initRankerState).1 =
      (some "fallback", none) :=
  (c2_ranker_kind_permanent ⟨true, false, Except.error "nofile"⟩
    ⟨true, false, Except.error "nofile"⟩).2.2.1 rfl

/-- C9: under ONNX mode the feature rows go to the session without any
width validation: the 400 "Expected 4 features" fault is unreachable, an
inference exception surfaces as the 500 "Ranking failed" fault, and a
successful inference returns its scores with `model="onnx"`. -/
theorem c9_onnx_no_width_check (s : OrtSession) (req : RankRequest) :
    (∀ scores, s.run req.features = .ok scores →
        rank_candidates "onnx" (some s) req = .ok ⟨scores, "onnx"⟩) ∧
    (∀ e, s.run req.features = .error e →
        rank_candidates "onnx" (some s) req =
          .error ⟨500, "Ranking failed: " ++ e⟩) ∧
    rank_candidates "onnx" (some s) req ≠
      .error ⟨400, "Expected 4 features per candidate"⟩ := by
  refine ⟨?_, ?_, ?_⟩
  · intro scores h
    simp [rank_candidates, h]
  · intro e h
    simp [rank_candidates, h]
  · cases h : s.run req.features with
    | ok scores => simp [rank_candidates, h]
    | error e => simp [rank_candidates, h]

/-- Witness for C9: a 3-wide row under ONNX mode is not rejected as a
client fault; the failing inference surfaces as the 500 error. -/
theorem c9_witness :
    rank_candidates "onnx" (some ⟨fun _ => Except.error "boom"⟩)
      ⟨[[1, 2, 3]]⟩ = .error ⟨500, "Ranking failed: boom"⟩ :=
  (c9_onnx_no_width_check ⟨fun _ => Except.error "boom"⟩
    ⟨[[1, 2, 3]]⟩).2.1 "boom" rfl

/-- C7: the two health endpoints always return a structured response:
`health_check` either `ok=true` with a model name and `ready=true` or
`ok=false, model="error", ready=false`; `ranker_health` either `ok=true`
with the ranker kind and `dimsExpected=4` or `ok=false, model="error",
dimsExpected=4`. -/
theorem c7_health_structured (load : Except String EmbModel)
    (env : RankerEnv) (st : RankerState) :
    ((∃ name, health_check load = ⟨true, name, true⟩) ∨
      health_check load = ⟨false, "error", false⟩) ∧
    ((∃ kind, ranker_health env st = ⟨true, kind, 4⟩) ∨
      ranker_health env st = ⟨false, "error", 4⟩) := by
  constructor
  · cases load with
    | ok m => exact Or.inl ⟨m.model_name.getD defaultModelName, rfl⟩
    | error e => exact Or.inr rfl
  · cases hk : (get_ranker env st).1.1 with
    | some k => exact Or.inl ⟨k, by simp [ranker_health, hk]⟩
    | none => exact Or.inr (by simp [ranker_health, hk])

/-- C8: a CSV missing required columns makes `load_data` fail naming
exactly the missing column list and `main` exit 1 no matter what the
rest of the pipeline would do; with all columns present, missing cells
are filled with 0 (under the warning condition) instead of failing. -/
theorem c8_training_schema (df : DataFrame) :
    (required_cols.filter (fun c => !df.columns.contains c) ≠ [] →
        load_data df = .error (.missingColumns
          (required_cols.filter (fun c => !df.columns.contains c))) ∧
        ∀ rest, main_train df rest = 1) ∧
    (required_cols.filter (fun c => !df.columns.contains c) = [] →
        (hasMissingValues df = true → load_data df = .ok (fillna0 df)) ∧
        (hasMissingValues df = false → load_data df = .ok df)) := by
  constructor
  · intro h
    have hl : load_data df = .error (.missingColumns
        (required_cols.filter (fun c => !df.columns.contains c))) := by
      simp only [load_data]
      rw [if_pos h]
    refine ⟨hl, fun rest => ?_⟩
    simp only [main_train, hl]
  · intro h
    have hneg : ¬(required_cols.filter (fun c => !df.columns.contains c) ≠ []) :=
      not_not_intro h
    constructor <;> intro hm
    · simp only [load_data]
      rw [if_neg hneg, if_pos hm]
    · simp only [load_data]
      rw [if_neg hneg, if_neg (by simp [hm])]

/-- Witness for C8: a CSV with the four feature columns but no `label`
column fails naming exactly `["label"]`, and the process exits 1 even
with an always-succeeding rest of the pipeline. -/
theorem c8_witness :
    load_data ⟨["f0_sim", "f1_recency", "f2_trust", "f3_geo"], []⟩ =
      .error (.missingColumns ["label"]) ∧
    main_train ⟨["f0_sim", "f1_recency", "f2_trust", "f3_geo"], []⟩
      (fun _ => .ok ()) = 1 := by
  have h := (c8_training_schema
    ⟨["f0_sim", "f1_recency", "f2_trust", "f3_geo"], []⟩).1 (by decide)
  have hfil : required_cols.filter
      (fun c => !(⟨["f0_sim", "f1_recency", "f2_trust", "f3_geo"], []⟩ :
        DataFrame).columns.contains c) = ["label"] := by decide
  exact ⟨hfil ▸ h.1, h.2 _⟩

end MLService
